import Mathlib

/-!
A shallow embedding of the request handlers and pydantic models declared in
src/main.py, a FastAPI application running on pydantic v1.

Modelling conventions:

* Python scalar values are `PyVal`; a handler returns a `PyBody`, either a
  bare scalar (the contact handler returns the user_agent header value) or
  a dict with scalar keys and scalar values (every other handler).
* A handler pipeline maps already-parsed inputs to a `Resp`: either
  `Resp.ok status body` for a successful response or `Resp.err status detail`
  for an HTTPException, a request-validation failure or a server error.
  FastAPI returns a structured per-field detail body for 422 validation
  errors; no claim depends on that structure, so every validation failure is
  abstracted to `Resp.err 422 validationDetail`.
* Path and query parameters that may fail to parse are `Option`-typed
  inputs; `Option.none` stands for a missing value or a value of the wrong
  type, which the framework rejects with 422 before the handler runs.
* pydantic v1 stores the min_length / max_length arguments of `Field`
  exactly as written and its length validator evaluates
  len(value) < min_length and len(value) > max_length.  In src/main.py the
  country field of Location (lines 38-42) passes the string literals for
  those bounds, so the comparison of an int with a str raises TypeError;
  pydantic v1 runs field validators inside a try block catching ValueError,
  TypeError and AssertionError and converts the exception into a validation
  error, hence a 422.  `PyBound` records a bound as written (int or str)
  and `pyLtNatBound` / `pyGtNatBound` return `Option.none` for the raising
  comparison.
* `round(x, ndigits=2)` on the exactly representable float n/1024 equals
  decimal round-half-even of the rational n/1024, embedded through
  `natDivHalfEven` on the scaled integer 100*n.
-/

inductive PyVal where
  | pyNone : PyVal
  | str : String → PyVal
  | int : Int → PyVal
  | bool : Bool → PyVal
  | rat : ℚ → PyVal
deriving DecidableEq

inductive PyBody where
  | scalar : PyVal → PyBody
  | dict : List (PyVal × PyVal) → PyBody
deriving DecidableEq

inductive Resp where
  | ok : Nat → PyBody → Resp
  | err : Nat → String → Resp
deriving DecidableEq

/-- Stands in for the structured per-field detail FastAPI puts in a 422 body. -/
def validationDetail : String := "validation error"

/-- A min_length / max_length argument exactly as written in the source:
an int, or (for the country field of Location) a string literal. -/
inductive PyBound where
  | int : Int → PyBound
  | str : String → PyBound

/-- Python comparison n < bound where n is a length (an int).  Comparing an
int with a str raises TypeError, modelled as `Option.none`. -/
def pyLtNatBound (n : Nat) (b : PyBound) : Option Bool :=
  match b with
  | .int m => Option.some (decide ((n : Int) < m))
  | .str _ => Option.none

/-- Python comparison bound < n; same TypeError behaviour as `pyLtNatBound`. -/
def pyGtNatBound (n : Nat) (b : PyBound) : Option Bool :=
  match b with
  | .int m => Option.some (decide (m < (n : Int)))
  | .str _ => Option.none

/-- pydantic v1 min_length check on a string length: the field is accepted
unless len < min_length evaluates to True, or the comparison raises (the
raised TypeError is caught by pydantic and also yields a validation error). -/
def constrMinOk (b : PyBound) (len : Nat) : Bool :=
  match pyLtNatBound len b with
  | Option.some lt => !lt
  | Option.none => false

/-- pydantic v1 max_length check on a string length, same error convention. -/
def constrMaxOk (b : PyBound) (len : Nat) : Bool :=
  match pyGtNatBound len b with
  | Option.some gt => !gt
  | Option.none => false

/-- A str field with both min_length and max_length constraints. -/
def strLenOk (minB maxB : PyBound) (s : String) : Bool :=
  constrMinOk minB s.length && constrMaxOk maxB s.length

/-- The HairColor enumeration of src/main.py lines 20-25. -/
inductive HairColor where
  | white | brown | black | blonde | red
deriving DecidableEq

/-- Enum lookup by value, as pydantic performs it for an enum-typed field:
the exact string values of the five members, case-sensitive. -/
def parseHairColor (s : String) : Option HairColor :=
  if s = "white" then Option.some HairColor.white
  else if s = "brown" then Option.some HairColor.brown
  else if s = "black" then Option.some HairColor.black
  else if s = "blonde" then Option.some HairColor.blonde
  else if s = "red" then Option.some HairColor.red
  else Option.none

/-- PersonBase.first_name: Field(min_length=1, max_length=50). -/
def firstNameOk (s : String) : Bool := strLenOk (.int 1) (.int 50) s

/-- PersonBase.last_name: Field(min_length=1, max_length=50). -/
def lastNameOk (s : String) : Bool := strLenOk (.int 1) (.int 50) s

/-- PersonBase.age: Field(gt=0, le=115), src/main.py lines 57-62. -/
def ageOk (v : Int) : Bool := decide (0 < v) && decide (v ≤ 115)

/-- PersonBase.hair_color: Optional[HairColor] with default None. -/
def hairColorOk : Option String → Bool
  | Option.none => true
  | Option.some s => (parseHairColor s).isSome

/-- Person.password: Field(min_length=8), src/main.py lines 67-70. -/
def passwordOk (s : String) : Bool := constrMinOk (.int 8) s.length

/-- Location.city: Field(min_length=1, max_length=50). -/
def cityOk (s : String) : Bool := strLenOk (.int 1) (.int 50) s

/-- Location.state: Field(min_length=1, max_length=50). -/
def stateOk (s : String) : Bool := strLenOk (.int 1) (.int 50) s

/-- Location.country: Field(min_length='1', max_length='50'), src/main.py
lines 38-42 - the bounds are string literals in the source. -/
def countryOk (s : String) : Bool := strLenOk (.str "1") (.str "50") s

/-- Raw request body for the Person model (fields of PersonBase plus
password); hair_color carries the raw string submitted for the enum. -/
structure PersonPayload where
  first_name : String
  last_name : String
  age : Int
  hair_color : Option String
  is_married : Option Bool
  password : String
deriving DecidableEq

/-- Raw request body for the Location model. -/
structure LocationPayload where
  city : String
  state : String
  country : String
deriving DecidableEq

/-- Validation of a Person body: the conjunction of its field constraints
(is_married is an Optional[bool] without constraints). -/
def personValid (p : PersonPayload) : Bool :=
  firstNameOk p.first_name && lastNameOk p.last_name && ageOk p.age &&
    hairColorOk p.hair_color && passwordOk p.password

/-- Validation of a Location body: the conjunction of its field constraints. -/
def locationValid (l : LocationPayload) : Bool :=
  cityOk l.city && stateOk l.state && countryOk l.country

def optStrVal : Option String → PyVal
  | Option.none => .pyNone
  | Option.some s => .str s

def optBoolVal : Option Bool → PyVal
  | Option.none => .pyNone
  | Option.some b => .bool b

def hasKey (d : List (PyVal × PyVal)) (k : PyVal) : Bool :=
  d.any (fun kv => decide (kv.1 = k))

def dictLookup (d : List (PyVal × PyVal)) (k : PyVal) : Option PyVal :=
  (d.find? (fun kv => decide (kv.1 = k))).map (fun kv => kv.2)

/-- Python dict.update semantics: keys already present are overwritten in
place with the value from the second dict, new keys are appended after the
existing ones in their own order. -/
def dictUpdate (d e : List (PyVal × PyVal)) : List (PyVal × PyVal) :=
  d.map (fun kv =>
    match dictLookup e kv.1 with
    | Option.some v => (kv.1, v)
    | Option.none => kv) ++
  e.filter (fun kv => !(hasKey d kv.1))

/-- person.dict() for the Person model: all six fields, password included. -/
def personDict (p : PersonPayload) : List (PyVal × PyVal) :=
  [(.str "first_name", .str p.first_name),
   (.str "last_name", .str p.last_name),
   (.str "age", .int p.age),
   (.str "hair_color", optStrVal p.hair_color),
   (.str "is_married", optBoolVal p.is_married),
   (.str "password", .str p.password)]

/-- The PersonOut projection (src/main.py lines 82-83): the fields of
PersonBase only, so no password. -/
def personOutDict (p : PersonPayload) : List (PyVal × PyVal) :=
  [(.str "first_name", .str p.first_name),
   (.str "last_name", .str p.last_name),
   (.str "age", .int p.age),
   (.str "hair_color", optStrVal p.hair_color),
   (.str "is_married", optBoolVal p.is_married)]

/-- location.dict() for the Location model. -/
def locationDict (l : LocationPayload) : List (PyVal × PyVal) :=
  [(.str "city", .str l.city),
   (.str "state", .str l.state),
   (.str "country", .str l.country)]

/-- GET / (src/main.py lines 94-99). -/
def homePipeline : Resp := .ok 200 (.dict [(.str "Hello", .str "World")])

/-- POST /person/new (src/main.py lines 102-109): body validated as Person,
then the returned person is serialized through response_model=PersonOut,
which keeps only the PersonBase fields; status 201. -/
def createPersonPipeline (p : PersonPayload) : Resp :=
  if personValid p then .ok 201 (.dict (personOutDict p))
  else .err 422 validationDetail

/-- Query parameter name of GET /person/detail: Optional[str] with
min_length=1, max_length=50; absent is allowed (default None). -/
def nameQueryOk : Option String → Bool
  | Option.none => true
  | Option.some s => strLenOk (.int 1) (.int 50) s

/-- GET /person/detail (src/main.py lines 112-133): required query param
age (a str), optional name; the handler returns the dict with the name
value (possibly None) as its only key. -/
def showPersonQueryPipeline (name : Option String) (age : Option String) : Resp :=
  match age with
  | Option.none => .err 422 validationDetail
  | Option.some a =>
    if nameQueryOk name then .ok 200 (.dict [(optStrVal name, .str a)])
    else .err 422 validationDetail

/-- The known-ids list of src/main.py line 135. -/
def persons : List Int := [1, 2, 3, 4, 5, 6, 7]

/-- GET /person/detail/person_id (src/main.py lines 138-157): the path
param must parse as an int (else 422 before the handler) and satisfy gt=0
(else 422 before the handler); the handler raises a 404 HTTPException when
the id is not in the known-ids list. -/
def showPersonPathPipeline (pid : Option Int) : Resp :=
  match pid with
  | Option.none => .err 422 validationDetail
  | Option.some id =>
    if 0 < id then
      if id ∈ persons then .ok 200 (.dict [(.int id, .str "It exists!")])
      else .err 404 "This person does not exist!"
    else .err 422 validationDetail

/-- The body of update_person (src/main.py lines 176-178):
results = person.dict(); results.update(location.dict()); return results. -/
def updatePersonHandler (p : PersonPayload) (l : LocationPayload) : List (PyVal × PyVal) :=
  dictUpdate (personDict p) (locationDict l)

/-- PUT /person/person_id (src/main.py lines 160-178): path param int with
gt=0, plus a Person body and a Location body, every constraint checked by
the framework before the handler runs; no response_model, so the merged
dict (password included) would be returned as is. -/
def updatePersonPipeline (pid : Option Int) (p : PersonPayload) (l : LocationPayload) : Resp :=
  match pid with
  | Option.none => .err 422 validationDetail
  | Option.some id =>
    if decide (0 < id) && personValid p && locationValid l then
      .ok 200 (.dict (updatePersonHandler p l))
    else .err 422 validationDetail

/-- The Form(...) declarations of login (src/main.py lines 188-191) carry
no constraint beyond being required, so any supplied pair of strings passes
request validation. -/
def loginFormOk (_username _password : String) : Bool := true

/-- POST /login (src/main.py lines 182-192): the handler constructs
LoginOut(username=username); LoginOut.username has max_length=20 (lines
85-91), so pydantic raises a ValidationError inside the handler for longer
usernames, which surfaces as an unhandled 500, not a 422.  The password
form field is accepted and never used. -/
def loginPipeline (username _password : String) : Resp :=
  if username.length ≤ 20 then
    .ok 200 (.dict [(.str "username", .str username),
                    (.str "message", .str "Login Successfully!")])
  else .err 500 "Internal Server Error"

/-- POST /contact (src/main.py lines 195-219): form fields first_name and
last_name with min_length=1, max_length=20, an email field and a message
with min_length=20, plus optional user_agent header and ads cookie; the
handler returns the bare user_agent value.  The email format check is
framework-internal and no claim depends on it, so it is a parameter. -/
def contactPipeline (emailOk : String → Bool)
    (first_name last_name email message : String)
    (user_agent _ads : Option String) : Resp :=
  if strLenOk (.int 1) (.int 20) first_name &&
      strLenOk (.int 1) (.int 20) last_name &&
      emailOk email && constrMinOk (.int 20) message.length then
    .ok 200 (.scalar (optStrVal user_agent))
  else .err 422 validationDetail

/-- An uploaded file: name, declared content type and raw bytes. -/
structure UploadFileModel where
  filename : String
  content_type : String
  content : List UInt8

/-- Round a/b to the nearest integer, ties to even (the rounding mode of
round() in Python). -/
def natDivHalfEven (a b : Nat) : Nat :=
  let q := a / b
  let r := a % b
  if 2 * r < b then q
  else if b < 2 * r then q + 1
  else if q % 2 = 0 then q else q + 1

/-- round(n/1024, ndigits=2) for a byte count n, as a rational.  n/1024 is
exactly representable as a float for every realistic n, and round() rounds
its exact value to the closest multiple of 1/100 with ties to even, which
is natDivHalfEven applied to the scaled integer 100*n. -/
def sizeKb (n : Nat) : ℚ := (natDivHalfEven (100 * n) 1024 : ℚ) / 100

/-- POST /post-image (src/main.py lines 223-235): returns the filename,
the content type, and the rounded size in kilobytes. -/
def postImagePipeline (f : UploadFileModel) : Resp :=
  .ok 200 (.dict [(.str "Filename", .str f.filename),
                  (.str "Format", .str f.content_type),
                  (.str "Size(kb)", .rat (sizeKb f.content.length))])

/-- Whether a response carries a top-level dict entry whose key is the
string password. -/
def respHasPasswordKey : Resp → Bool
  | .ok _ (.dict d) => hasKey d (.str "password")
  | _ => false

/-- The valid example Person of the spec. -/
def johnPerson : PersonPayload :=
  { first_name := "John", last_name := "Doe", age := 30,
    hair_color := Option.some "black", is_married := Option.some false,
    password := "secretpw" }

/-- The example Location of src/main.py lines 27-42. -/
def exampleLocation : LocationPayload :=
  { city := "Coatzacoalcos", state := "Veracruz", country := "México" }

/-! Helper lemmas shared by several claim theorems. -/

/-- The country length check of Location compares an int with the string
bound written in the source, so it fails on every value. -/
theorem countryOk_eq_false (s : String) : countryOk s = false := rfl

/-- Consequently no Location body at all passes validation. -/
theorem locationValid_eq_false (l : LocationPayload) : locationValid l = false := by
  simp [locationValid, countryOk_eq_false]

/-- Consequently the PUT /person/person_id pipeline always answers 422. -/
theorem updatePersonPipeline_eq_err (pid : Option Int) (p : PersonPayload)
    (l : LocationPayload) :
    updatePersonPipeline pid p l = .err 422 validationDetail := by
  cases pid with
  | none => rfl
  | some id => simp [updatePersonPipeline, locationValid_eq_false]

theorem passwordOk_of_len (s : String) (h : 8 ≤ s.length) : passwordOk s = true := by
  simp only [passwordOk, constrMinOk, pyLtNatBound, Bool.not_eq_true']
  simpa using by omega

/-- The merge computed by update_person is the plain concatenation of the
two field lists, because the key sets of Person and Location are disjoint. -/
theorem updatePersonHandler_eq_append (p : PersonPayload) (l : LocationPayload) :
    updatePersonHandler p l = personDict p ++ locationDict l := rfl

/-! Claim theorems. -/

/-- Claim C2: for every valid Person payload, POST /person/new answers 201
with the PersonOut projection of the input: exactly the keys first_name,
last_name, age, hair_color, is_married, and no password key. -/
theorem c2_create_person_projection (p : PersonPayload) (h : personValid p = true) :
    createPersonPipeline p = .ok 201 (.dict (personOutDict p)) ∧
    (personOutDict p).map Prod.fst =
      [.str "first_name", .str "last_name", .str "age",
       .str "hair_color", .str "is_married"] ∧
    hasKey (personOutDict p) (.str "password") = false := by
  refine ⟨by simp [createPersonPipeline, h], rfl, rfl⟩

theorem c2_witness :
    personValid johnPerson = true ∧
    createPersonPipeline johnPerson = .ok 201 (.dict (personOutDict johnPerson)) :=
  ⟨by decide, (c2_create_person_projection johnPerson (by decide)).1⟩

/-- Claim C3: for a positive integer person_id the path endpoint answers
200 with the single-entry mapping exactly when the id is in the known-ids
list, answers 404 with the literal detail otherwise, and answers 422 for a
non-positive or non-integer person_id before the handler runs. -/
theorem c3_show_person_path_contract :
    (∀ id : Int, 0 < id →
      (showPersonPathPipeline (Option.some id)
          = .ok 200 (.dict [(.int id, .str "It exists!")]) ↔ id ∈ persons)) ∧
    (∀ id : Int, 0 < id → id ∉ persons →
      showPersonPathPipeline (Option.some id) = .err 404 "This person does not exist!") ∧
    (∀ id : Int, id ≤ 0 →
      showPersonPathPipeline (Option.some id) = .err 422 validationDetail) ∧
    showPersonPathPipeline Option.none = .err 422 validationDetail := by
  refine ⟨?_, ?_, ?_, rfl⟩
  · intro id h0
    by_cases hm : id ∈ persons
    · simp [showPersonPathPipeline, h0, hm]
    · simp [showPersonPathPipeline, h0, hm]
  · intro id h0 hm
    simp [showPersonPathPipeline, h0, hm]
  · intro id h0
    have hn : ¬ 0 < id := by omega
    simp [showPersonPathPipeline, hn]

theorem c3_witness :
    showPersonPathPipeline (Option.some 3)
      = .ok 200 (.dict [(.int 3, .str "It exists!")]) ∧
    showPersonPathPipeline (Option.some 99) = .err 404 "This person does not exist!" ∧
    showPersonPathPipeline (Option.some (-1)) = .err 422 validationDetail :=
  ⟨(c3_show_person_path_contract.1 3 (by norm_num)).mpr (by decide),
   c3_show_person_path_contract.2.1 99 (by norm_num) (by decide),
   c3_show_person_path_contract.2.2.1 (-1) (by norm_num)⟩

/-- Claim C4: the age field constraint rejects every non-positive integer
and every integer above 115, accepts every integer in between, and an age
rejection makes the whole Person validation fail. -/
theorem c4_age_field_bounds :
    (∀ v : Int, v ≤ 0 → ageOk v = false) ∧
    (∀ v : Int, 115 < v → ageOk v = false) ∧
    (∀ v : Int, 0 < v → v ≤ 115 → ageOk v = true) ∧
    ageOk 115 = true ∧ ageOk 116 = false ∧
    (∀ p : PersonPayload, ageOk p.age = false → personValid p = false) := by
  refine ⟨?_, ?_, ?_, by decide, by decide, ?_⟩
  · intro v h
    simp only [ageOk, Bool.and_eq_false_iff, decide_eq_false_iff_not]
    omega
  · intro v h
    simp only [ageOk, Bool.and_eq_false_iff, decide_eq_false_iff_not]
    omega
  · intro v h1 h2
    simp only [ageOk, Bool.and_eq_true, decide_eq_true_eq]
    omega
  · intro p h
    simp [personValid, h]

theorem c4_witness : ageOk 0 = false ∧ ageOk (-5) = false ∧ ageOk 30 = true :=
  ⟨c4_age_field_bounds.1 0 (by omega), c4_age_field_bounds.1 (-5) (by omega),
   c4_age_field_bounds.2.2.1 30 (by omega) (by omega)⟩

/-- Claim C10: when the optional name query parameter is omitted but the
required age parameter is supplied, GET /person/detail still succeeds and
returns the single-entry mapping whose key is the Python None value. -/
theorem c10_query_name_omitted (age : String) :
    showPersonQueryPipeline Option.none (Option.some age)
      = .ok 200 (.dict [(PyVal.pyNone, .str age)]) ∧
    [(PyVal.pyNone, PyVal.str age)].length = 1 ∧
    PyBody.dict [(PyVal.pyNone, PyVal.str age)] ≠ PyBody.dict [] := by
  refine ⟨rfl, rfl, by simp⟩

/-- Claim C5 (code bug): the update_person handler does compute the merged
mapping of the Person fields followed by the Location fields with no field
loss and with Location values winning any lookup on a Location key, but
the endpoint never reaches it: the country bounds of Location are string
literals, every Location body fails validation, and the request from the
spec example answers 422 instead of the merged mapping. -/
theorem c5_update_person_merge :
    updatePersonPipeline (Option.some 5) johnPerson exampleLocation
      = .err 422 validationDetail ∧
    (∀ (p : PersonPayload) (l : LocationPayload),
      updatePersonHandler p l = personDict p ++ locationDict l) ∧
    (∀ (p : PersonPayload) (l : LocationPayload),
      dictLookup (updatePersonHandler p l) (.str "city") = Option.some (.str l.city) ∧
      dictLookup (updatePersonHandler p l) (.str "state") = Option.some (.str l.state) ∧
      dictLookup (updatePersonHandler p l) (.str "country") = Option.some (.str l.country) ∧
      dictLookup (updatePersonHandler p l) (.str "first_name") = Option.some (.str p.first_name) ∧
      dictLookup (updatePersonHandler p l) (.str "last_name") = Option.some (.str p.last_name) ∧
      dictLookup (updatePersonHandler p l) (.str "age") = Option.some (.int p.age) ∧
      dictLookup (updatePersonHandler p l) (.str "hair_color")
        = Option.some (optStrVal p.hair_color) ∧
      dictLookup (updatePersonHandler p l) (.str "is_married")
        = Option.some (optBoolVal p.is_married) ∧
      dictLookup (updatePersonHandler p l) (.str "password")
        = Option.some (.str p.password)) := by
  refine ⟨updatePersonPipeline_eq_err _ _ _, fun p l => updatePersonHandler_eq_append p l,
    fun p l => ⟨rfl, rfl, rfl, rfl, rfl, rfl, rfl, rfl, rfl⟩⟩

/-- Claim C6: the hair_color field accepts exactly the five case-sensitive
enumeration values or an omitted value, and a Person that validates has an
accepted hair_color. -/
theorem c6_hair_color_enum :
    (∀ s : String, hairColorOk (Option.some s) = true ↔
      (s = "white" ∨ s = "brown" ∨ s = "black" ∨ s = "blonde" ∨ s = "red")) ∧
    hairColorOk Option.none = true ∧
    hairColorOk (Option.some "White") = false ∧
    (∀ p : PersonPayload, personValid p = true → hairColorOk p.hair_color = true) := by
  refine ⟨?_, rfl, by decide, ?_⟩
  · intro s
    simp only [hairColorOk, parseHairColor]
    split_ifs with h1 h2 h3 h4 h5 <;> simp_all
  · intro p h
    simp only [personValid, Bool.and_eq_true] at h
    exact h.1.2

theorem c6_witness :
    hairColorOk (Option.some "white") = true ∧ hairColorOk johnPerson.hair_color = true :=
  ⟨(c6_hair_color_enum.1 "white").mpr (Or.inl rfl),
   c6_hair_color_enum.2.2.2 johnPerson (by decide)⟩

/-- Claim C7 (code bug): city and state are indeed validated as strings of
1 to 50 characters, but the country bounds are the string literals of
src/main.py lines 38-42, whose comparison with the length raises TypeError
inside the pydantic validator, so every country value - including the
in-range source example - is rejected and no Location body validates. -/
theorem c7_location_field_validation :
    (∀ s : String, cityOk s = true ↔ (1 ≤ s.length ∧ s.length ≤ 50)) ∧
    (∀ s : String, stateOk s = true ↔ (1 ≤ s.length ∧ s.length ≤ 50)) ∧
    (∀ s : String, countryOk s = false) ∧
    (∀ l : LocationPayload, locationValid l = false) ∧
    locationValid exampleLocation = false ∧
    (1 ≤ "México".length ∧ "México".length ≤ 50) := by
  refine ⟨?_, ?_, countryOk_eq_false, locationValid_eq_false,
    locationValid_eq_false _, by decide⟩
  all_goals
    intro s
    simp only [cityOk, stateOk, strLenOk, constrMinOk, constrMaxOk, pyLtNatBound,
      pyGtNatBound, Bool.and_eq_true, Bool.not_eq_true', decide_eq_false_iff_not]
    omega

/-- Claim C8: the post-image endpoint returns the filename, the content
type and the size in kilobytes rounded to two decimals, with the rounding
instances pinned down: a 2048-byte file reports exactly 2, a 128-byte file
hits the tie and rounds to even (0.12), a 1000-byte file rounds up (0.98). -/
theorem c8_post_image_summary :
    (∀ f : UploadFileModel,
      postImagePipeline f = .ok 200 (.dict
        [(.str "Filename", .str f.filename),
         (.str "Format", .str f.content_type),
         (.str "Size(kb)", .rat (sizeKb f.content.length))])) ∧
    sizeKb 2048 = 2 ∧ sizeKb 128 = 12 / 100 ∧ sizeKb 1000 = 98 / 100 := by
  refine ⟨fun f => rfl, ?_, ?_, ?_⟩
  · have h : natDivHalfEven (100 * 2048) 1024 = 200 := by decide
    rw [sizeKb, h]
    norm_num
  · have h : natDivHalfEven (100 * 128) 1024 = 12 := by decide
    rw [sizeKb, h]
    norm_num
  · have h : natDivHalfEven (100 * 1000) 1024 = 98 := by decide
    rw [sizeKb, h]
    norm_num

/-- Claim C9: the login form declares no length constraint, so any
username passes request validation; a username longer than 20 characters
then fails inside the handler when LoginOut is constructed, producing an
unhandled 500 rather than a 422, while a short username logs in normally. -/
theorem c9_login_username_overflow :
    (∀ u pw : String, loginFormOk u pw = true) ∧
    (∀ u pw : String, 20 < u.length →
        loginPipeline u pw = .err 500 "Internal Server Error") ∧
    (∀ u pw : String, u.length ≤ 20 →
        loginPipeline u pw = .ok 200 (.dict [(.str "username", .str u),
          (.str "message", .str "Login Successfully!")])) := by
  refine ⟨fun u pw => rfl, ?_, ?_⟩
  · intro u pw h
    have hn : ¬ u.length ≤ 20 := by omega
    simp [loginPipeline, hn]
  · intro u pw h
    simp [loginPipeline, h]

theorem c9_witness :
    loginPipeline "abcdefghijklmnopqrstu" "pw" = .err 500 "Internal Server Error" :=
  c9_login_username_overflow.2.1 "abcdefghijklmnopqrstu" "pw" (by decide)

/-- Claim C1 as stated is false: GET /person/detail echoes the client
chosen name as the key of its single-entry response, so the valid input
name=password, age=22 yields a 200 response that contains a password key. -/
theorem c1_counterexample :
    nameQueryOk (Option.some "password") = true ∧
    showPersonQueryPipeline (Option.some "password") (Option.some "22")
      = .ok 200 (.dict [(.str "password", .str "22")]) ∧
    respHasPasswordKey
      (showPersonQueryPipeline (Option.some "password") (Option.some "22")) = true := by
  refine ⟨by decide, rfl, by decide⟩

/-- Claim C1 (amended): for every operation and every input, the response
carries no password key and does not depend on any submitted password,
with the single exception of GET /person/detail, whose only response key
is the client-chosen name and therefore is a password key exactly when the
client submits the name value password.  For PUT the statement holds over
all inputs because no Location body validates, so the endpoint always
answers 422 and the merged dict that would expose the password is never
returned. -/
theorem c1_no_password_in_output :
    respHasPasswordKey homePipeline = false ∧
    (∀ p : PersonPayload, respHasPasswordKey (createPersonPipeline p) = false) ∧
    (∀ (p : PersonPayload) (pw₁ pw₂ : String), 8 ≤ pw₁.length → 8 ≤ pw₂.length →
      createPersonPipeline { p with password := pw₁ }
        = createPersonPipeline { p with password := pw₂ }) ∧
    (∀ name age : Option String, name ≠ Option.some "password" →
      respHasPasswordKey (showPersonQueryPipeline name age) = false) ∧
    (∀ pid : Option Int, respHasPasswordKey (showPersonPathPipeline pid) = false) ∧
    (∀ (pid : Option Int) (p : PersonPayload) (l : LocationPayload),
      respHasPasswordKey (updatePersonPipeline pid p l) = false) ∧
    (∀ (pid : Option Int) (p : PersonPayload) (l : LocationPayload) (pw₁ pw₂ : String),
      updatePersonPipeline pid { p with password := pw₁ } l
        = updatePersonPipeline pid { p with password := pw₂ } l) ∧
    (∀ u pw : String, respHasPasswordKey (loginPipeline u pw) = false) ∧
    (∀ u pw₁ pw₂ : String, loginPipeline u pw₁ = loginPipeline u pw₂) ∧
    (∀ (emailOk : String → Bool) (fn ln em msg : String) (ua ads : Option String),
      respHasPasswordKey (contactPipeline emailOk fn ln em msg ua ads) = false) ∧
    (∀ f : UploadFileModel, respHasPasswordKey (postImagePipeline f) = false) := by
  refine ⟨rfl, ?_, ?_, ?_, ?_, ?_, ?_, ?_, ?_, ?_, ?_⟩
  · intro p
    cases h : personValid p with
    | false => simp [createPersonPipeline, h, respHasPasswordKey]
    | true =>
      simp only [createPersonPipeline, h, if_true]
      rfl
  · intro p pw₁ pw₂ h₁ h₂
    have hv : personValid { p with password := pw₁ }
        = personValid { p with password := pw₂ } := by
      simp [personValid, passwordOk_of_len _ h₁, passwordOk_of_len _ h₂]
    simp only [createPersonPipeline, hv]
    cases h : personValid { p with password := pw₂ } with
    | false => simp [h]
    | true =>
      simp only [h, if_true]
      rfl
  · intro name age h
    cases age with
    | none => rfl
    | some a =>
      cases hn : nameQueryOk name with
      | false => simp [showPersonQueryPipeline, hn, respHasPasswordKey]
      | true =>
        cases name with
        | none => simp [showPersonQueryPipeline, hn, respHasPasswordKey, hasKey, optStrVal]
        | some s =>
          have hs : s ≠ "password" := by
            intro hcon
            exact h (by rw [hcon])
          simp [showPersonQueryPipeline, hn, respHasPasswordKey, hasKey, optStrVal, hs]
  · intro pid
    cases pid with
    | none => rfl
    | some id =>
      by_cases h0 : 0 < id
      · by_cases hm : id ∈ persons
        · simp only [showPersonPathPipeline, h0, hm, if_true]
          rfl
        · simp [showPersonPathPipeline, h0, hm, respHasPasswordKey]
      · simp [showPersonPathPipeline, h0, respHasPasswordKey]
  · intro pid p l
    rw [updatePersonPipeline_eq_err]
    rfl
  · intro pid p l pw₁ pw₂
    rw [updatePersonPipeline_eq_err, updatePersonPipeline_eq_err]
  · intro u pw
    by_cases h : u.length ≤ 20
    · simp only [loginPipeline, h, if_true]
      rfl
    · simp [loginPipeline, h, respHasPasswordKey]
  · intro u pw₁ pw₂
    rfl
  · intro emailOk fn ln em msg ua ads
    cases h : (strLenOk (.int 1) (.int 20) fn && strLenOk (.int 1) (.int 20) ln &&
        emailOk em && constrMinOk (.int 20) msg.length) with
    | false => simp [contactPipeline, h, respHasPasswordKey]
    | true =>
      simp only [contactPipeline, h, if_true]
      cases ua <;> rfl
  · intro f
    rfl

theorem c1_witness :
    createPersonPipeline { johnPerson with password := "abcdefgh" }
      = createPersonPipeline { johnPerson with password := "password123" } ∧
    respHasPasswordKey
      (showPersonQueryPipeline (Option.some "Dulce") (Option.some "22")) = false := by
  obtain ⟨-, -, h3, h4, -⟩ := c1_no_password_in_output
  exact ⟨h3 johnPerson "abcdefgh" "password123" (by decide) (by decide),
         h4 (Option.some "Dulce") (Option.some "22") (by decide)⟩
